import Mathlib

/-!
Verification of the streaming-chat session manager of the news-agent
front-end.  The definitions below are a shallow embedding of the
TypeScript sources:

* `formatPreferenceMessage` and its helpers embed the pure helper of the
  same name in `frontend/lib/hooks/useStreamingChat.ts` (lines 16-86).
  JavaScript string primitives (`split`, `trim`, `charAt(0).toUpperCase()
  + slice(1).toLowerCase()`, `includes`, `startsWith`) are embedded as
  structurally recursive functions on the character list of the string;
  case mapping uses `Char.toUpper`/`Char.toLower`, which agrees with the
  JavaScript functions on the ASCII alphabet used by the tables.
* `getRecommendedTimeout` embeds the helper of the same name in the
  network-status hook (timeouts in milliseconds as rationals, so that the
  1.5 factor of the `"3g"` branch is exact).
* `sendMessage` embeds the `sendMessage` closure of `useStreamingChat`.
  The React state cells (`messages`, `streamingMessage`, `isStreaming`,
  `error`) become the fields of `SessionState`; one call is a function
  from the pre-call state and an environment (network status, fetch
  outcome, clock reading) to the post-call state plus the list of
  `onPreferencesUpdate` calls made.  The transport is abstracted as the
  list of already-split `data:`-lines the read loop sees, each either a
  non-`data:` line, a `data:` line whose JSON payload fails to parse
  (`SyntaxError`), or a parsed event; an `AbortError` can surface at the
  `fetch` itself or at a `reader.read()` suspension point after some
  prefix of the lines.
-/

namespace NewsAgent

/-! ## Data model (frontend/types/index.ts) -/

inductive ToneType
  | formal
  | casual
  | enthusiastic
deriving DecidableEq

inductive FormatType
  | bullet_points
  | paragraphs
deriving DecidableEq

inductive InteractionStyleType
  | concise
  | detailed
deriving DecidableEq

inductive RoleType
  | user
  | assistant
  | system
deriving DecidableEq

structure UserPreferences where
  tone : Option ToneType
  format : Option FormatType
  language : Option String
  interaction_style : Option InteractionStyleType
  topics : Option (List String)
deriving DecidableEq

structure QuickReplyOption where
  label : String
  value : String
deriving DecidableEq

inductive SelectionType
  | single
  | multiple
deriving DecidableEq

structure ChatMessage where
  role : RoleType
  content : String
  timestamp : String
  quick_reply_options : Option (List QuickReplyOption) := none
  is_preference_question : Option Bool := none
  preference_type : Option String := none
  selection_type : Option SelectionType := none
deriving DecidableEq

/-! ## JavaScript string primitives, embedded structurally -/

/-- JS `str.split(sep)` for a one-character separator, on character
lists; always returns at least one group, e.g. `"".split(":") = [""]`. -/
def splitCharAux (sep : Char) : List Char → List (List Char)
  | [] => [[]]
  | c :: rest =>
    match splitCharAux sep rest with
    | [] => if c = sep then [[], []] else [[c]]
    | g :: gs => if c = sep then [] :: g :: gs else (c :: g) :: gs

/-- JS `s.split(sep)` for a one-character separator. -/
def jsSplit (s : String) (sep : Char) : List String :=
  (splitCharAux sep s.data).map String.mk

/-- JS `s.charAt(0).toUpperCase() + s.slice(1).toLowerCase()`. -/
def jsCapitalize (s : String) : String :=
  match s.data with
  | [] => ""
  | c :: rest => String.mk (c.toUpper :: rest.map Char.toLower)

/-- JS `s.toLowerCase()`. -/
def jsToLower (s : String) : String :=
  String.mk (s.data.map Char.toLower)

/-- JS `s.trim()`. -/
def jsTrim (s : String) : String :=
  String.mk (((s.data.dropWhile Char.isWhitespace).reverse.dropWhile
    Char.isWhitespace).reverse)

/-- JS `array.join(sep)`. -/
def joinSep (sep : String) : List String → String
  | [] => ""
  | [x] => x
  | x :: y :: rest => x ++ sep ++ joinSep sep (y :: rest)

/-! ## Preference-message formatter (useStreamingChat.ts lines 16-86) -/

/-- The reserved marker on outgoing preference-selection messages. -/
def preferenceMarker : String := "PREFERENCE_SELECTION:"

/-- The fixed `formatMap` lookup table for known preference types. -/
def formatMap : String → Option String
  | "tone" => some "Preferred Tone of Voice"
  | "news_topics" => some "News Topic Interest"
  | "language" => some "Language Preference"
  | "region" => some "Region Preference"
  | "depth" => some "Content Depth Preference"
  | "source_type" => some "Source Type Preference"
  | "interaction_style" => some "Interaction Style"
  | "format" => some "Format Preference"
  | _ => none

/-- The fixed `specialCases` table used on single (comma-free) values. -/
def specialCases : String → Option String
  | "bullet_points" => some "Bullet Points"
  | "numbered_list" => some "Numbered List"
  | "q_and_a" => some "Q&A"
  | "api" => some "API"
  | "usa" => some "USA"
  | "uk" => some "UK"
  | "eu" => some "EU"
  | _ => none

/-- Title-case a snake_case string: split on underscores, capitalize
each word, join with spaces (the shared fallback of the formatter). -/
def titleCaseUnderscore (s : String) : String :=
  joinSep " " ((jsSplit s '_').map jsCapitalize)

/-- The inner `formatValue` helper: comma-separated values are trimmed,
capitalized and joined with ", "; otherwise the special-case table is
consulted on the lowercased value, falling back to snake_case
title-casing. -/
def formatValue (val : String) : String :=
  if val.data.contains ',' then
    joinSep ", " (((jsSplit val ',').map jsTrim).map jsCapitalize)
  else
    match specialCases (jsToLower val) with
    | some s => s
    | none => titleCaseUnderscore val

/-- Embedding of `formatPreferenceMessage`: rewrite
`PREFERENCE_SELECTION:type:value` into a human-readable label.  JS `message.replace(marker, "")` removes
the first occurrence of the marker; under the `startsWith` guard that is
the leading prefix, embedded as dropping `marker.length` characters. -/
def formatPreferenceMessage (message : String) : String :=
  if preferenceMarker.data.isPrefixOf message.data = false then
    message
  else
    let stripped := String.mk (message.data.drop preferenceMarker.data.length)
    match jsSplit stripped ':' with
    | [preferenceType, value] =>
      let formattedType :=
        match formatMap preferenceType with
        | some t => t
        | none => titleCaseUnderscore preferenceType
      formattedType ++ ": " ++ formatValue value
    | _ => message

/-! ## Network status and timeouts (useNetworkStatus.ts) -/

structure NetworkStatus where
  isOnline : Bool
  isSlowConnection : Bool
  connectionType : String
  effectiveType : String

/-- The operation kinds accepted by `getRecommendedTimeout`. -/
inductive Operation
  | api
  | upload
  | download
  | general
deriving DecidableEq

/-- The fixed base timeouts table, in milliseconds. -/
def baseTimeouts : Operation → ℚ
  | .api => 30000
  | .upload => 120000
  | .download => 60000
  | .general => 30000

/-- Embedding of `getRecommendedTimeout` of the network-status hook: 0 when offline,
the base timeout doubled on a slow connection, otherwise scaled by
effective connection type (`"slow-2g"` 3x, `"2g"` 2x, `"3g"` 1.5x,
`"4g"` and anything else 1x). -/
def getRecommendedTimeout (ns : NetworkStatus) (operation : Operation) : ℚ :=
  if ns.isOnline = false then 0
  else
    let baseTimeout := baseTimeouts operation
    if ns.isSlowConnection then baseTimeout * 2
    else
      match ns.effectiveType with
      | "slow-2g" => baseTimeout * 3
      | "2g" => baseTimeout * 2
      | "3g" => baseTimeout * (3 / 2)
      | _ => baseTimeout

/-! ## The streaming transport, abstracted

The read loop of `sendMessage` decodes each arriving fragment, splits on
newlines and handles each line.  We abstract the transport as the list
of lines the loop processes before it stops: each line is either not
`"data: "`-prefixed (skipped by the `startsWith` guard), a `data:` line
whose payload fails `JSON.parse` with a `SyntaxError` (skipped by the
inner catch), or a parsed event object. -/

/-- The payload of the `message` field of a `complete_message` event;
every field is optional, mirroring `data.message?.<field>` access. -/
structure MessagePayload where
  content : Option String := none
  timestamp : Option String := none
  quick_reply_options : Option (List QuickReplyOption) := none
  is_preference_question : Option Bool := none
  preference_type : Option String := none
  selection_type : Option SelectionType := none
deriving DecidableEq

/-- A parsed stream event, discriminated on its `type` field. -/
inductive StreamEvent
  | chunk (content : Option String)
  | complete_message (message : Option MessagePayload)
      (preferences : Option UserPreferences)
  | complete (preferences : Option UserPreferences)
  | error (err : Option String)
  | other (ty : String)
deriving DecidableEq

/-- One line seen by the read loop. -/
inductive StreamLine
  | noData (raw : String)
  | badJson
  | event (e : StreamEvent)
deriving DecidableEq

/-- How the stream ends after its lines: the reader reports `done`, or
an `AbortError` is raised at a read suspension point. -/
inductive StreamEnd
  | done
  | aborted
deriving DecidableEq

/-- The HTTP response: status, status text and an optional body
(`response.body?.getReader()` yields nothing when the body is null). -/
structure Response where
  status : Nat
  statusText : String
  body : Option (List StreamLine × StreamEnd)

/-- JS `response.ok`: status in the 2xx range. -/
def Response.ok (r : Response) : Bool :=
  decide (200 ≤ r.status) && decide (r.status < 300)

/-- Outcome of the `fetch` call itself. -/
inductive FetchOutcome
  | aborted
  | success (r : Response)

/-- The environment of one `sendMessage` call: the connectivity signal,
the fetch outcome, and the clock reading used for
`new Date().toISOString()`. -/
structure Env where
  networkStatus : NetworkStatus
  fetchOutcome : FetchOutcome
  now : String

/-! ## The session state machine (useStreamingChat.ts lines 103-260) -/

/-- The React state cells of the hook that one call manipulates. -/
structure SessionState where
  messages : List ChatMessage
  streamingMessage : Option String
  isStreaming : Bool
  error : Option String
deriving DecidableEq

/-- An exception escaping the try block: an `AbortError`, or an `Error`
with a message (offline, HTTP failure, missing body, stream `error`
event). -/
inductive Exn
  | abortError
  | jsError (message : String)
deriving DecidableEq

/-- The mutable state visible inside the try block: the message log and
streaming buffer cells, the local `accumulatedMessage`, and the
`onPreferencesUpdate` calls made so far (in order). -/
structure MidState where
  messages : List ChatMessage
  streamingMessage : Option String
  accumulated : String
  prefUpdates : List UserPreferences
deriving DecidableEq

/-- JS `accumulatedMessage += data.content` coerces an undefined
`content` to the string "undefined". -/
def jsCoerce : Option String → String
  | some s => s
  | none => "undefined"

/-- The assistant message built by the `complete_message` branch:
`content` and `timestamp` default via `??`, the remaining fields are
optional-chained off `data.message`. -/
def completeMessageOf (now : String) (message : Option MessagePayload) :
    ChatMessage where
  role := .assistant
  content := ((message.bind fun m => m.content).getD "")
  timestamp := ((message.bind fun m => m.timestamp).getD now)
  quick_reply_options := message.bind fun m => m.quick_reply_options
  is_preference_question := message.bind fun m => m.is_preference_question
  preference_type := message.bind fun m => m.preference_type
  selection_type := message.bind fun m => m.selection_type

/-- The assistant message built by the `complete` branch from the
locally accumulated buffer and a fresh timestamp. -/
def accumulatedMessageOf (accumulated now : String) : ChatMessage :=
  { role := .assistant, content := accumulated, timestamp := now }

/-- Handling of one line of the stream.  `Except.error` means the
handler of the line threw (only the `error` event branch throws; a `SyntaxError`
from `JSON.parse` is caught and the line skipped, embedded as the
`badJson` case). -/
def processLine (now : String) (st : MidState) : StreamLine → Except Exn MidState
  | .noData _ => .ok st
  | .badJson => .ok st
  | .event (.chunk content) =>
    let acc := st.accumulated ++ jsCoerce content
    .ok { st with accumulated := acc, streamingMessage := some acc }
  | .event (.complete_message message preferences) =>
    .ok { st with
      messages := st.messages ++ [completeMessageOf now message]
      streamingMessage := none
      prefUpdates := st.prefUpdates ++ preferences.toList }
  | .event (.complete preferences) =>
    .ok { st with
      messages := st.messages ++ [accumulatedMessageOf st.accumulated now]
      streamingMessage := none
      prefUpdates := st.prefUpdates ++ preferences.toList }
  | .event (.error err) => .error (.jsError (err.getD "Unknown error"))
  | .event (.other _) => .ok st

/-- The read loop over the lines of the stream: lines are handled in
order; a thrown handler ends the loop with the state reached so far and
the exception. -/
def processLines (now : String) : MidState → List StreamLine →
    MidState × Option Exn
  | st, [] => (st, none)
  | st, l :: rest =>
    match processLine now st l with
    | .ok st2 => processLines now st2 rest
    | .error e => (st, some e)

/-- The user-facing message thrown when the connectivity signal reports
offline. -/
def offlineMessage : String :=
  "You\x27re offline. Please check your connection and try again."

/-- The try block of `sendMessage`: offline check, fetch, `response.ok`
check, body check, then the read loop; returns the try-state reached and
the exception that escaped, if any. -/
def runTry (env : Env) (st : MidState) : MidState × Option Exn :=
  if env.networkStatus.isOnline = false then
    (st, some (.jsError offlineMessage))
  else
    match env.fetchOutcome with
    | .aborted => (st, some .abortError)
    | .success r =>
      if r.ok = false then
        (st, some (.jsError ("Failed to send message: " ++ toString r.status
          ++ " " ++ r.statusText)))
      else
        match r.body with
        | none => (st, some (.jsError "No response body"))
        | some (lines, ending) =>
          match processLines env.now st lines with
          | (st2, some e) => (st2, some e)
          | (st2, none) =>
            match ending with
            | .done => (st2, none)
            | .aborted => (st2, some .abortError)

/-- The reserved init-conversation sentinel. -/
def INIT_SENTINEL : String := "__INIT_CONVERSATION__"

/-- The optimistic user message (the `userMessage` local of the code):
the formatted content with a send-time timestamp. -/
def optimisticUserMessage (content now : String) : ChatMessage :=
  { role := .user, content := formatPreferenceMessage content,
    timestamp := now }

/-- The synchronous head of `sendMessage`: set `isStreaming`, clear
`error`, reset the buffer to `""`, and append the optimistic user
message (formatted) unless the content is the init sentinel. -/
def sendMessageStart (content : String) (now : String) (s : SessionState) :
    SessionState :=
  let s1 : SessionState :=
    { s with isStreaming := true, error := none, streamingMessage := some "" }
  if content = INIT_SENTINEL then s1
  else
    { s1 with messages := s1.messages ++ [optimisticUserMessage content now] }

/-- The catch/finally of `sendMessage` applied to the try outcome: on no
exception, keep the try-state; on `AbortError`, only clear the buffer;
on any other error, set `error`, drop the last log entry
(`prev.slice(0, -1)`) and clear the buffer; `finally` resets
`isStreaming`. -/
def applyOutcome : MidState × Option Exn → SessionState × List UserPreferences
  | (mid, none) =>
    ({ messages := mid.messages, streamingMessage := mid.streamingMessage,
       isStreaming := false, error := none }, mid.prefUpdates)
  | (mid, some .abortError) =>
    ({ messages := mid.messages, streamingMessage := none,
       isStreaming := false, error := none }, mid.prefUpdates)
  | (mid, some (.jsError msg)) =>
    ({ messages := mid.messages.dropLast, streamingMessage := none,
       isStreaming := false, error := some msg }, mid.prefUpdates)

/-- The try-state at entry of the try block. -/
def initialMid (s : SessionState) : MidState :=
  { messages := s.messages, streamingMessage := s.streamingMessage,
    accumulated := "", prefUpdates := [] }

/-- One `sendMessage(content)` call: the pre-try synchronous updates,
the try block, and the catch/finally.  Returns the post-call session
state and the `onPreferencesUpdate` calls made. -/
def sendMessage (content : String) (env : Env) (s : SessionState) :
    SessionState × List UserPreferences :=
  applyOutcome (runTry env (initialMid (sendMessageStart content env.now s)))

/-! ## Concrete fixtures and small helpers used by the theorems -/

/-- Concatenation of a list of strings in order. -/
def concatAll : List String → String
  | [] => ""
  | c :: rest => c ++ concatAll rest

/-- The stream lines carrying the given chunk contents, in order. -/
def chunkLines (contents : List String) : List StreamLine :=
  contents.map fun c => .event (.chunk (some c))

/-- An ordinary online connectivity signal. -/
def onlineNs : NetworkStatus :=
  { isOnline := true, isSlowConnection := false, connectionType := "wifi",
    effectiveType := "4g" }

/-- An offline connectivity signal. -/
def offlineNs : NetworkStatus :=
  { isOnline := false, isSlowConnection := false,
    connectionType := "unknown", effectiveType := "unknown" }

/-- A session with an empty log and no activity. -/
def emptySession : SessionState :=
  { messages := [], streamingMessage := none, isStreaming := false,
    error := none }

/-- A session whose log holds one earlier assistant message. -/
def oneMsgSession : SessionState :=
  { messages := [{ role := .assistant, content := "hello", timestamp := "t0" }],
    streamingMessage := none, isStreaming := false, error := none }

/-- An online environment whose 200 response streams the given lines and
then reports done. -/
def streamEnv (lines : List StreamLine) : Env :=
  { networkStatus := onlineNs,
    fetchOutcome := .success
      { status := 200, statusText := "OK", body := some (lines, .done) },
    now := "t1" }

/-- An online environment whose fetch is aborted (preempting send or
timeout). -/
def abortEnv : Env :=
  { networkStatus := onlineNs, fetchOutcome := .aborted, now := "t1" }

/-- An offline environment. -/
def offlineEnv : Env :=
  { networkStatus := offlineNs, fetchOutcome := .aborted, now := "t1" }

/-! ## General lemmas about the state machine -/

/-- Whatever the try outcome, the catch/finally leaves `isStreaming`
false. -/
lemma applyOutcome_isStreaming (p : MidState × Option Exn) :
    (applyOutcome p).1.isStreaming = false := by
  obtain ⟨mid, e⟩ := p
  cases e with
  | none => rfl
  | some ex => cases ex <;> rfl

/-- The read loop only ever appends to the message log. -/
lemma processLines_messages (now : String) :
    ∀ (ls : List StreamLine) (st : MidState),
      ∃ t, (processLines now st ls).1.messages = st.messages ++ t := by
  intro ls
  induction ls with
  | nil => exact fun st => ⟨[], (List.append_nil _).symm⟩
  | cons l rest ih =>
    intro st
    cases l with
    | noData raw => simpa [processLines, processLine] using ih st
    | badJson => simpa [processLines, processLine] using ih st
    | event e =>
      cases e with
      | chunk c =>
        obtain ⟨t, ht⟩ := ih { st with
          accumulated := st.accumulated ++ jsCoerce c,
          streamingMessage := some (st.accumulated ++ jsCoerce c) }
        exact ⟨t, by simpa [processLines, processLine] using ht⟩
      | complete_message m p =>
        obtain ⟨t, ht⟩ := ih { st with
          messages := st.messages ++ [completeMessageOf now m],
          streamingMessage := none,
          prefUpdates := st.prefUpdates ++ p.toList }
        refine ⟨completeMessageOf now m :: t, ?_⟩
        simp only [processLines, processLine]
        rw [ht]
        simp
      | complete p =>
        obtain ⟨t, ht⟩ := ih { st with
          messages := st.messages ++ [accumulatedMessageOf st.accumulated now],
          streamingMessage := none,
          prefUpdates := st.prefUpdates ++ p.toList }
        refine ⟨accumulatedMessageOf st.accumulated now :: t, ?_⟩
        simp only [processLines, processLine]
        rw [ht]
        simp
      | error err => exact ⟨[], by simp [processLines, processLine]⟩
      | other ty => simpa [processLines, processLine] using ih st

/-- The try block only ever appends to the message log. -/
lemma runTry_messages (env : Env) (st : MidState) :
    ∃ t, (runTry env st).1.messages = st.messages ++ t := by
  obtain ⟨ns, f, now⟩ := env
  by_cases hon : ns.isOnline = false
  · exact ⟨[], by simp [runTry, hon]⟩
  · cases f with
    | aborted => exact ⟨[], by simp [runTry, hon]⟩
    | success r =>
      by_cases hok : r.ok = false
      · exact ⟨[], by simp [runTry, hon, hok]⟩
      · cases hb : r.body with
        | none => exact ⟨[], by simp [runTry, hon, hok, hb]⟩
        | some pr =>
          obtain ⟨lines, ending⟩ := pr
          obtain ⟨t, ht⟩ := processLines_messages now lines st
          refine ⟨t, ?_⟩
          rcases hp : processLines now st lines with ⟨st2, e2⟩
          rw [hp] at ht
          cases e2 with
          | some e => simpa [runTry, hon, hok, hb, hp] using ht
          | none => cases ending <;> simpa [runTry, hon, hok, hb, hp] using ht

/-- The synchronous head of a call only ever appends to the log. -/
lemma sendMessageStart_messages (content now : String) (s : SessionState) :
    ∃ t, (sendMessageStart content now s).messages = s.messages ++ t := by
  unfold sendMessageStart
  split
  · exact ⟨[], (List.append_nil _).symm⟩
  · exact ⟨_, rfl⟩

/-- Accumulation over any run of chunk events: no exception escapes and
the buffer grows by the concatenation of the contents in order. -/
lemma processLines_chunks_accum (now : String) :
    ∀ (contents : List String) (st : MidState),
      (processLines now st (chunkLines contents)).2 = none ∧
      (processLines now st (chunkLines contents)).1.accumulated =
        st.accumulated ++ concatAll contents := by
  intro contents
  induction contents with
  | nil =>
    exact fun st => ⟨rfl, (String.append_empty _).symm⟩
  | cons c rest ih =>
    intro st
    have h := ih { st with
      accumulated := st.accumulated ++ c,
      streamingMessage := some (st.accumulated ++ c) }
    constructor
    · simpa [chunkLines, processLines, processLine, jsCoerce] using h.1
    · have h2 := h.2
      simp only [chunkLines, List.map, processLines, processLine, jsCoerce]
      simp only [chunkLines] at h2
      rw [h2]
      simp [concatAll, String.append_assoc]

/-- One step of the read loop when the handler of the head line does not
throw. -/
lemma processLines_cons_ok (now : String) (st st2 : MidState) (l : StreamLine)
    (rest : List StreamLine) (h : processLine now st l = .ok st2) :
    processLines now st (l :: rest) = processLines now st2 rest := by
  simp only [processLines]
  rw [h]

/-- After a nonempty run of chunk events the published streaming-message
snapshot equals the accumulated buffer. -/
lemma processLines_chunks_buffer (now : String) :
    ∀ (contents : List String) (st : MidState), contents ≠ [] →
      (processLines now st (chunkLines contents)).1.streamingMessage =
        some (st.accumulated ++ concatAll contents) := by
  intro contents
  induction contents with
  | nil => exact fun st h => absurd rfl h
  | cons c rest ih =>
    intro st _
    rw [show chunkLines (c :: rest) =
        .event (.chunk (some c)) :: chunkLines rest from rfl,
      processLines_cons_ok now st { st with
        accumulated := st.accumulated ++ c,
        streamingMessage := some (st.accumulated ++ c) }
        (.event (.chunk (some c))) (chunkLines rest) rfl]
    cases rest with
    | nil =>
      simp [chunkLines, processLines, concatAll, String.append_empty]
    | cons d ds =>
      rw [ih _ (by simp)]
      simp [concatAll, String.append_assoc]

/-! ## The claims -/

/-- C1: the claim says every non-cancellation failure leaves the log
length unchanged (the optimistic user message rolled back), including
the init-sentinel send and streams that appended an assistant message
before the error event.  The code instead removes the last log entry
unconditionally (`prev.slice(0, -1)`), contradicting its own comment
"Remove the user message on error": a failed init-sentinel send on a
one-message log empties the log (net -1), and a failure after a
`complete_message` event removes the assistant message and leaves the
optimistic user message (net +1).  This theorem evaluates the code at
both failing inputs. -/
theorem c1_rollback_failing_eval :
    oneMsgSession.messages.length = 1 ∧
    ((sendMessage INIT_SENTINEL offlineEnv oneMsgSession).1.messages).length = 0 ∧
    emptySession.messages.length = 0 ∧
    ((sendMessage "hi" (streamEnv
      [.event (.complete_message (some { content := some "ans" }) none),
       .event (.error (some "boom"))]) emptySession).1.messages).map
      (fun m => m.role) = [.user] := by decide

/-- C2 counterexample: a cancelled ordinary send does not leave the
message log equal to the pre-call log — the optimistic user message
appended at send time stays. -/
theorem c2_cancelled_log_cex :
    (sendMessage "hi" abortEnv emptySession).1.messages ≠
      emptySession.messages := by decide

/-- C2 (amended): for every sendMessage call that ends in cancellation,
the streaming buffer is reset to null and the error field is null, and
no rollback occurs: the log after the call equals the try-state log at
the abort point — no entry is removed, so the pre-call log, the
optimistic user message appended at send time (for a non-init send) and
any assistant messages appended by the stream before the abort all
survive in order. -/
theorem c2_cancelled_amended (content : String) (env : Env) (s : SessionState)
    (h : (runTry env (initialMid (sendMessageStart content env.now s))).2 =
      some Exn.abortError) :
    (sendMessage content env s).1.streamingMessage = none ∧
    (sendMessage content env s).1.error = none ∧
    (sendMessage content env s).1.messages =
      (runTry env (initialMid (sendMessageStart content env.now s))).1.messages ∧
    (sendMessageStart content env.now s).messages =
      (if content = INIT_SENTINEL then s.messages
       else s.messages ++ [optimisticUserMessage content env.now]) ∧
    ∃ streamAppends, (sendMessage content env s).1.messages =
      (sendMessageStart content env.now s).messages ++ streamAppends := by
  obtain ⟨t1, h1⟩ :=
    runTry_messages env (initialMid (sendMessageStart content env.now s))
  have hstart : (sendMessageStart content env.now s).messages =
      (if content = INIT_SENTINEL then s.messages
       else s.messages ++ [optimisticUserMessage content env.now]) := by
    unfold sendMessageStart
    split <;> simp
  unfold sendMessage
  rcases hp : runTry env (initialMid (sendMessageStart content env.now s))
    with ⟨mid, e⟩
  rw [hp] at h h1
  simp only at h
  subst h
  refine ⟨rfl, rfl, rfl, hstart, ⟨t1, ?_⟩⟩
  exact h1

/-- Witness for C2 (amended) at a concrete cancelled send. -/
theorem c2_cancelled_amended_witness :
    (sendMessage "hi" abortEnv emptySession).1.streamingMessage = none ∧
    (sendMessage "hi" abortEnv emptySession).1.error = none ∧
    (sendMessage "hi" abortEnv emptySession).1.messages =
      (runTry abortEnv
        (initialMid (sendMessageStart "hi" abortEnv.now emptySession))).1.messages ∧
    (sendMessageStart "hi" abortEnv.now emptySession).messages =
      (if "hi" = INIT_SENTINEL then emptySession.messages
       else emptySession.messages ++ [optimisticUserMessage "hi" abortEnv.now]) ∧
    ∃ streamAppends, (sendMessage "hi" abortEnv emptySession).1.messages =
      (sendMessageStart "hi" abortEnv.now emptySession).messages ++ streamAppends :=
  c2_cancelled_amended "hi" abortEnv emptySession (by decide)

/-- C3 counterexample: the formatter applied to
PREFERENCE_SELECTION:topics:technology,sports does not return the
News Topic Interest label claimed. -/
theorem c3_topics_scenario_cex :
    formatPreferenceMessage "PREFERENCE_SELECTION:topics:technology,sports" ≠
      "News Topic Interest: Technology, Sports" := by decide

/-- C3 (amended): the lookup table is keyed news_topics while the type
sent is topics, so the lookup misses and the type falls through to
generic title-casing: the output is "Topics: Technology, Sports", each
comma-separated value item title-cased and joined with ", ". -/
theorem c3_topics_scenario_amended :
    formatPreferenceMessage "PREFERENCE_SELECTION:topics:technology,sports" =
      "Topics: Technology, Sports" ∧
    formatMap "topics" = none ∧
    formatMap "news_topics" = some "News Topic Interest" := by decide

/-- C4: when the connectivity signal reports offline, the call fails
with the fixed offline message in the error field, and the whole
outcome is independent of the fetch outcome — no network request is
consulted. -/
theorem c4_offline_no_fetch (content : String) (ns : NetworkStatus)
    (f f2 : FetchOutcome) (now : String) (s : SessionState)
    (h : ns.isOnline = false) :
    (sendMessage content ⟨ns, f, now⟩ s).1.error = some offlineMessage ∧
    sendMessage content ⟨ns, f, now⟩ s = sendMessage content ⟨ns, f2, now⟩ s := by
  constructor <;> simp [sendMessage, runTry, h, applyOutcome]

/-- Witness for C4 at a concrete offline send. -/
theorem c4_offline_no_fetch_witness :
    (sendMessage "hi" offlineEnv emptySession).1.error = some offlineMessage ∧
    sendMessage "hi" offlineEnv emptySession =
      sendMessage "hi" ⟨offlineNs, .success
        { status := 200, statusText := "OK", body := some ([], .done) },
        "t1"⟩ emptySession :=
  c4_offline_no_fetch "hi" offlineNs .aborted (.success
    { status := 200, statusText := "OK", body := some ([], .done) })
    "t1" emptySession rfl

/-- C5: processing any run of chunk events raises no exception and
accumulates the concatenation of their content fields in arrival order;
for a nonempty run the streaming buffer is published with exactly that
concatenation; in particular the stream chunk "a" then chunk "b" ends
the call with streaming buffer "ab". -/
theorem c5_chunk_concat (now : String) (contents : List String) (st : MidState) :
    (processLines now st (chunkLines contents)).2 = none ∧
    (processLines now st (chunkLines contents)).1.accumulated =
      st.accumulated ++ concatAll contents ∧
    (contents ≠ [] →
      (processLines now st (chunkLines contents)).1.streamingMessage =
        some (st.accumulated ++ concatAll contents)) ∧
    (sendMessage "hi" (streamEnv (chunkLines ["a", "b"]))
      emptySession).1.streamingMessage = some "ab" :=
  ⟨(processLines_chunks_accum now contents st).1,
   (processLines_chunks_accum now contents st).2,
   processLines_chunks_buffer now contents st, by decide⟩

/-- Witness for C5 at the concrete two-chunk stream. -/
theorem c5_chunk_concat_witness :
    (processLines "t1" (initialMid emptySession)
      (chunkLines ["a", "b"])).1.streamingMessage =
      some ((initialMid emptySession).accumulated ++ concatAll ["a", "b"]) :=
  (c5_chunk_concat "t1" ["a", "b"] (initialMid emptySession)).2.2.1 (by decide)

/-- C6: for every call and every outcome, isStreaming is false when the
call finishes — the finally step resets it on every exit path. -/
theorem c6_isStreaming_always_reset (content : String) (env : Env)
    (s : SessionState) : (sendMessage content env s).1.isStreaming = false :=
  applyOutcome_isStreaming _

/-- C7: a data line whose JSON payload fails parsing is skipped silently
and the loop continues with the remaining lines unchanged; the throw for
an error event propagates, ending the loop at once; a concrete call with
such a stream ends in the FAILED state with the error surfaced and
isStreaming reset. -/
theorem c7_badjson_skipped (now : String) (st : MidState)
    (rest : List StreamLine) (msg : String) :
    processLines now st (.badJson :: rest) = processLines now st rest ∧
    processLines now st (.event (.error (some msg)) :: rest) =
      (st, some (.jsError msg)) ∧
    (sendMessage "hi" (streamEnv [.badJson, .event (.chunk (some "a")),
      .event (.error (some "boom"))]) emptySession).1.error = some "boom" ∧
    (sendMessage "hi" (streamEnv [.badJson, .event (.chunk (some "a")),
      .event (.error (some "boom"))]) emptySession).1.isStreaming = false := by
  refine ⟨processLines_cons_ok now st st .badJson rest rfl, ?_,
    by decide, by decide⟩
  simp [processLines, processLine]

/-- C8: the recommended timeout is 0 when the network status is offline,
and for every online status it is the base timeout of the operation
scaled by a factor between 1 and 3 inclusive; the api base timeout is
30000 ms. -/
theorem c8_timeout_scale (ns : NetworkStatus) (operation : Operation) :
    (ns.isOnline = false → getRecommendedTimeout ns operation = 0) ∧
    (ns.isOnline = true → ∃ k : ℚ, 1 ≤ k ∧ k ≤ 3 ∧
      getRecommendedTimeout ns operation = baseTimeouts operation * k) ∧
    baseTimeouts .api = 30000 := by
  refine ⟨fun hoff => by simp [getRecommendedTimeout, hoff],
    fun hon => ?_, rfl⟩
  by_cases hs : ns.isSlowConnection = true
  · exact ⟨2, by norm_num, by norm_num,
      by simp [getRecommendedTimeout, hon, hs]⟩
  · have hred : getRecommendedTimeout ns operation =
        (match ns.effectiveType with
         | "slow-2g" => baseTimeouts operation * 3
         | "2g" => baseTimeouts operation * 2
         | "3g" => baseTimeouts operation * (3 / 2)
         | _ => baseTimeouts operation) := by
      simp [getRecommendedTimeout, hon, hs]
    rw [hred]
    split
    · exact ⟨3, by norm_num, by norm_num, rfl⟩
    · exact ⟨2, by norm_num, by norm_num, rfl⟩
    · exact ⟨3 / 2, by norm_num, by norm_num, rfl⟩
    · exact ⟨1, by norm_num, by norm_num, (mul_one _).symm⟩

/-- Witness for C8 at a concrete offline and a concrete online status. -/
theorem c8_timeout_scale_witness :
    getRecommendedTimeout offlineNs .api = 0 ∧
    ∃ k : ℚ, 1 ≤ k ∧ k ≤ 3 ∧
      getRecommendedTimeout onlineNs .api = baseTimeouts .api * k :=
  ⟨(c8_timeout_scale offlineNs .api).1 rfl,
   (c8_timeout_scale onlineNs .api).2.1 rfl⟩

/-- C9: a complete_message event whose message is absent appends an
assistant message with empty content, the freshly generated timestamp
and all optional fields absent, and the handler succeeds rather than
failing; a present message lacking content or timestamp gets the same
default for the missing field. -/
theorem c9_complete_message_defaults (now : String) (st : MidState)
    (m : MessagePayload) (preferences : Option UserPreferences) :
    completeMessageOf now none =
      { role := .assistant, content := "", timestamp := now } ∧
    (m.content = none → (completeMessageOf now (some m)).content = "") ∧
    (m.timestamp = none → (completeMessageOf now (some m)).timestamp = now) ∧
    processLine now st (.event (.complete_message none preferences)) =
      .ok { st with
        messages := st.messages ++ [completeMessageOf now none],
        streamingMessage := none,
        prefUpdates := st.prefUpdates ++ preferences.toList } :=
  ⟨rfl, fun h => by simp [completeMessageOf, h],
   fun h => by simp [completeMessageOf, h], rfl⟩

/-- Witness for C9 at a concrete payload missing content and timestamp. -/
theorem c9_complete_message_defaults_witness :
    (completeMessageOf "t1"
      (some { content := none, timestamp := none })).content = "" ∧
    (completeMessageOf "t1"
      (some { content := none, timestamp := none })).timestamp = "t1" :=
  ⟨(c9_complete_message_defaults "t1" (initialMid emptySession)
      { content := none, timestamp := none } none).2.1 rfl,
   (c9_complete_message_defaults "t1" (initialMid emptySession)
      { content := none, timestamp := none } none).2.2.1 rfl⟩

/-- C10: every sendMessage call starts by clearing the error field and
resetting the streaming buffer to the empty string, for every prior
session state and content; the whole call is the composition of this
start step with the try block and the catch/finally. -/
theorem c10_send_start_resets (content : String) (env : Env)
    (s : SessionState) :
    (sendMessageStart content env.now s).error = none ∧
    (sendMessageStart content env.now s).streamingMessage = some "" ∧
    sendMessage content env s =
      applyOutcome (runTry env (initialMid (sendMessageStart content env.now s))) := by
  refine ⟨?_, ?_, rfl⟩ <;> unfold sendMessageStart <;> split <;> rfl

end NewsAgent
